import Mathlib

/-
Verification of the Sheetpilot timesheet submission core against its
natural-language specification.

The development shallowly embeds the Rust backend (src/backend/src) into
Lean:

* the persisted timesheet store (SQLite table `timesheet`) becomes a
  `List DbRow`; the SQL `status` column is NULL for drafts, which is the
  `RowStatus.draft` constructor here, and the two datetime stamp columns
  become `Option Int` (minutes on an abstract clock);
* SQL UPDATE statements become `List.map` with the statement's WHERE
  clause as the condition and its SET clause as the row update, and
  `rows_affected` becomes the length of the filter by the WHERE clause;
* fallible external effects (browser, page, login, per-row fill, submit
  click) are parameters of the orchestration functions: each is an
  `Except String Unit` (or a per-index function of such), mirroring the
  Rust `Result` values those calls produce.  Database operations
  themselves are modelled as succeeding: the claims under study are about
  the state-machine logic, not about I/O faults of the store.

Payload columns that the lifecycle operations never read (project, tool,
charge code, task description) are omitted from `DbRow`; they are carried
where an operation does read them (`DraftRow` for draft validation).
-/

/-- Lifecycle status of a timesheet row.  In the SQLite schema the status
column is NULL for a draft and the strings Submitting / Complete / Failed
otherwise; `draft` stands for the NULL column value. -/
inductive RowStatus
  | draft
  | submitting
  | complete
  | failed
deriving DecidableEq, Repr

/-- One persisted timesheet row, restricted to the columns the submission
lifecycle reads and writes: primary key, status, and the two stamp
columns.  Stamps are minutes on an abstract clock (`datetime` values in
the SQL). -/
structure DbRow where
  id : Int
  status : RowStatus
  submission_started_at : Option Int
  submitted_at : Option Int
deriving DecidableEq, Repr

/-- Row update used by every UPDATE that sets status = Failed and clears
submission_started_at (recovery.rs and the reconciliation in
commands/submission.rs). -/
def failRow (r : DbRow) : DbRow :=
  { r with status := RowStatus.failed, submission_started_at := none }

/-- Row update used by the UPDATE that sets status = Complete, stamps
submitted_at = datetime(now) and clears submission_started_at
(commands/submission.rs, STEP 5, success branch). -/
def completeRow (now : Int) (r : DbRow) : DbRow :=
  { r with status := RowStatus.complete
         , submitted_at := some now
         , submission_started_at := none }

/-- WHERE clause of recovery.rs recover_stuck_submissions: status =
Submitting and datetime(submission_started_at) < datetime(now, -30
minutes).  A NULL stamp compares as NULL in SQL, hence does not match. -/
def isStuck (now : Int) (r : DbRow) : Bool :=
  decide (r.status = RowStatus.submitting) &&
    (match r.submission_started_at with
     | some t => decide (t < now - 30)
     | none => false)

/-- Embedding of recovery.rs recover_stuck_submissions: one UPDATE that
forces every stuck Submitting row to Failed and clears its stamp; the
returned number is rows_affected. -/
def recover_stuck_submissions (now : Int) (store : List DbRow) :
    List DbRow × Nat :=
  (store.map (fun r => if isStuck now r then failRow r else r),
   (store.filter (isStuck now)).length)

/-- Embedding of recovery.rs reset_failed_to_draft: one UPDATE that sets
status = NULL (draft) and clears submission_started_at on every Failed
row; the returned number is rows_affected. -/
def reset_failed_to_draft (store : List DbRow) : List DbRow × Nat :=
  (store.map (fun r =>
     if r.status = RowStatus.failed then
       { r with status := RowStatus.draft, submission_started_at := none }
     else r),
   (store.filter (fun r => decide (r.status = RowStatus.failed))).length)

/-
Orchestration (src/backend/src/bot/orchestration.rs).

The browser, page, login, navigation, per-row fill and submit-click
outcomes are external effects of the flaky browser session; they enter
the embedding as an environment record.  Each field is the Result the
corresponding Rust call would return (fill outcomes are per row index:
the page reaction to a given row is part of the environment).
-/

/-- Result record produced by run_automation / run_timesheet
(orchestration.rs AutomationResult). -/
structure AutomationResult where
  success : Bool
  submitted_indices : List Nat
  errors : List (Nat × String)
  total_rows : Nat
  success_count : Nat
  failure_count : Nat
deriving DecidableEq, Repr

/-- Input row handed to the bot (orchestration.rs TimesheetRow). -/
structure BotRow where
  date : String
  time_in : String
  time_out : String
  project : String
  tool : Option String
  charge_code : Option String
  task_description : String
deriving DecidableEq, Repr

/-- Environment of external browser-session outcomes for one automation
run: whether the browser was started, and the results of page creation,
login, form navigation, each per-index row fill, and the submit click. -/
structure BotEnv where
  browserStarted : Bool
  pageResult : Except String Unit
  loginResult : Except String Unit
  navResult : Except String Unit
  fillResult : Nat → Except String Unit
  submitResult : Except String Unit

/-- Step 3 of run_automation: iterate the rows in input order, recording
the index of every successful fill and an (index, message) error entry
for every failed one (orchestration.rs lines 150-166). -/
def fillPhase (env : BotEnv) (rows : List BotRow) :
    List Nat × List (Nat × String) :=
  rows.enum.foldl
    (fun acc p =>
      match env.fillResult p.1 with
      | Except.ok _ => (acc.1 ++ [p.1], acc.2)
      | Except.error e => (acc.1, acc.2 ++ [(p.1, "Failed to fill row: " ++ e)]))
    ([], [])

/-- Embedding of BotOrchestrator::run_automation.  Mirrors the control
flow of orchestration.rs lines 76-210: browser check, page creation,
login (failure marks every row failed with the same message), navigation
(same), per-row fill, then a single submit click if any row was filled;
a failed submit demotes every tentatively filled row to the error list
and clears the filled-index list.  verify_submission only logs, so it
does not appear in the result. -/
def run_automation (env : BotEnv) (rows : List BotRow) :
    Except String AutomationResult :=
  if ¬ env.browserStarted then Except.error "Browser not started"
  else
    match env.pageResult with
    | Except.error e => Except.error ("Failed to create page: " ++ e)
    | Except.ok _ =>
      let total_rows := rows.length
      match env.loginResult with
      | Except.error e =>
          let msg := "Authentication failed: " ++ e
          Except.ok
            { success := false
              submitted_indices := []
              errors := (List.range total_rows).map (fun i => (i, msg))
              total_rows := total_rows
              success_count := 0
              failure_count := total_rows }
      | Except.ok _ =>
        match env.navResult with
        | Except.error e =>
            let msg := "Failed to navigate to form: " ++ e
            Except.ok
              { success := false
                submitted_indices := []
                errors := (List.range total_rows).map (fun i => (i, msg))
                total_rows := total_rows
                success_count := 0
                failure_count := total_rows }
        | Except.ok _ =>
          let filled := fillPhase env rows
          let reconciled :=
            if filled.1 ≠ [] then
              match env.submitResult with
              | Except.ok _ => filled
              | Except.error e =>
                  let msg := "Failed to submit form: " ++ e
                  ([], filled.2 ++ filled.1.map (fun i => (i, msg)))
            else filled
          Except.ok
            { success := decide (reconciled.1.length > 0)
              submitted_indices := reconciled.1
              errors := reconciled.2
              total_rows := total_rows
              success_count := reconciled.1.length
              failure_count := reconciled.2.length }

/-- Outcome of run_timesheet: the automation result together with
whether a browser was ever created and started for the run. -/
structure RunOutcome where
  result : Except String AutomationResult
  browserStarted : Bool
deriving Repr

/-- Embedding of run_timesheet (orchestration.rs lines 214-249): an empty
row list short-circuits to an all-zero successful result with no browser
work; otherwise the bot is created, the browser started, run_automation
executed, and the browser closed. -/
def run_timesheet (env : BotEnv) (startResult : Except String Unit)
    (rows : List BotRow) : RunOutcome :=
  if rows.isEmpty then
    { result := Except.ok
        { success := true
          submitted_indices := []
          errors := []
          total_rows := 0
          success_count := 0
          failure_count := 0 }
      browserStarted := false }
  else
    match startResult with
    | Except.error e =>
        { result := Except.error ("Failed to start browser: " ++ e)
          browserStarted := true }
    | Except.ok _ =>
        { result := run_automation env rows, browserStarted := true }

/-- Sample timesheet row used to instantiate the orchestration theorems
at concrete inputs. -/
def sampleRow : BotRow :=
  { date := "2025-07-10", time_in := "09:00", time_out := "17:30"
    project := "P1", tool := none, charge_code := none
    task_description := "work" }

/-- Environment in which browser, page, login, navigation and every row
fill succeed, with a chosen submit-click outcome. -/
def okEnv (sub : Except String Unit) : BotEnv :=
  { browserStarted := true, pageResult := Except.ok ()
    loginResult := Except.ok (), navResult := Except.ok ()
    fillResult := fun _ => Except.ok (), submitResult := sub }

/-
Submission lifecycle (src/backend/src/commands/submission.rs,
timesheet_submit).  The SQL store is the `List DbRow` from above; the
bot invocation (run_timesheet) is abstracted by its result, passed in as
a parameter, and the outcome records whether the bot was invoked at all.
Database statements are modelled as succeeding.
-/

/-- Summary record of timesheet_submit (commands/submission.rs
SubmissionResult). -/
structure SubmissionResult where
  ok : Bool
  submitted_ids : List Int
  removed_ids : List Int
  total_processed : Nat
  success_count : Nat
  removed_count : Nat
  error : Option String
deriving DecidableEq, Repr

/-- Outcome of one timesheet_submit call: the store after the call, the
response error and summary, and whether the bot automation was
invoked. -/
structure SubmitOutcome where
  store : List DbRow
  error : Option String
  submit_result : Option SubmissionResult
  ranAutomation : Bool
deriving Repr

/-- STEP 2 of timesheet_submit: UPDATE timesheet SET status =
Submitting, submission_started_at = now WHERE status IS NULL. -/
def markDrafts (now : Int) (store : List DbRow) : List DbRow :=
  store.map (fun r =>
    if r.status = RowStatus.draft then
      { r with status := RowStatus.submitting
             , submission_started_at := some now }
    else r)

/-- UPDATE ... WHERE id = i, applied to every row carrying the id
(ids are a primary key, but the embedding does not need to assume it). -/
def updateById (f : DbRow → DbRow) (i : Int) (store : List DbRow) :
    List DbRow :=
  store.map (fun r => if r.id = i then f r else r)

/-- STEP 5 of timesheet_submit, success branch: walk the loaded entries
in order with their indices; an entry whose index the bot reported as
submitted is marked Complete with submitted_at stamped, every other
entry is marked Failed, both clearing submission_started_at. -/
def reconcileOk (now : Int) (result : AutomationResult)
    (entries : List DbRow) (store : List DbRow) : List DbRow :=
  entries.enum.foldl
    (fun st p =>
      if result.submitted_indices.contains p.1 then
        updateById (completeRow now) p.2.id st
      else
        updateById failRow p.2.id st)
    store

/-- STEP 5 of timesheet_submit, bot-error branch: UPDATE timesheet SET
status = Failed, submission_started_at = NULL WHERE status =
Submitting. -/
def failAllSubmitting (store : List DbRow) : List DbRow :=
  store.map (fun r =>
    if r.status = RowStatus.submitting then failRow r else r)

/-- Embedding of commands/submission.rs timesheet_submit.  `credsFound`
is whether the credentials query found a row for the service;
`botResult` is the value run_timesheet would return for the loaded
entries.  The call: claims every Draft row (STEP 2), returns "nothing to
submit" without bot work when zero rows were claimed, otherwise loads
the Submitting rows (STEP 3; the SQL orders them by date and time_in,
which permutes the list and is irrelevant to the statuses proved here),
runs the bot, and reconciles every loaded row to Complete or Failed
(STEP 5). -/
def timesheet_submit (credsFound : Bool) (service : String)
    (botResult : Except String AutomationResult) (now : Int)
    (store : List DbRow) : SubmitOutcome :=
  if ¬ credsFound then
    { store := store
      error := some ("No credentials found for service '" ++ service ++
        "'. Please store credentials first.")
      submit_result := none
      ranAutomation := false }
  else
    let rowsMarked :=
      (store.filter (fun r => decide (r.status = RowStatus.draft))).length
    let marked := markDrafts now store
    if rowsMarked = 0 then
      { store := marked
        error := some "No draft entries to submit"
        submit_result := none
        ranAutomation := false }
    else
      let entries :=
        marked.filter (fun r => decide (r.status = RowStatus.submitting))
      match botResult with
      | Except.ok result =>
          let submitted_ids :=
            (entries.enum.filter
              (fun p => result.submitted_indices.contains p.1)).map
              (fun p => p.2.id)
          let failedCount :=
            (entries.enum.filter
              (fun p => ¬ result.submitted_indices.contains p.1)).length
          { store := reconcileOk now result entries marked
            error :=
              if failedCount > 0 then
                some (Nat.repr failedCount ++ " entries failed to submit")
              else none
            submit_result := some
              { ok := result.success
                submitted_ids := submitted_ids
                removed_ids := []
                total_processed := result.total_rows
                success_count := result.success_count
                removed_count := 0
                error := none }
            ranAutomation := true }
      | Except.error e =>
          { store := failAllSubmitting marked
            error := some ("Automation failed: " ++ e)
            submit_result := none
            ranAutomation := true }

/-- Effect of the reconciliation walk on one row for one loaded entry:
the row is updated exactly when it carries the entry's id, to Complete
or Failed according to the bot result at the entry's index. -/
def applyEntry (now : Int) (result : AutomationResult) (r : DbRow)
    (p : Nat × DbRow) : DbRow :=
  if r.id = p.2.id then
    (if result.submitted_indices.contains p.1 then completeRow now r
     else failRow r)
  else r

/-- Effect of the whole reconciliation walk on one row. -/
def applyEntries (now : Int) (result : AutomationResult)
    (ps : List (Nat × DbRow)) (r : DbRow) : DbRow :=
  ps.foldl (applyEntry now result) r

/-- Terminal-state predicate of claim C1: the row is Complete with
submitted_at stamped and submission_started_at cleared, or Failed with
submission_started_at cleared. -/
def Reconciled (now : Int) (r : DbRow) : Prop :=
  (r.status = RowStatus.complete ∧ r.submitted_at = some now ∧
    r.submission_started_at = none) ∨
  (r.status = RowStatus.failed ∧ r.submission_started_at = none)

/-
Quarter router (src/backend/src/bot/quarter_config.rs).

Dates are embedded as year/month/day triples, and chrono's
NaiveDate::parse_from_str(date_str, "%Y-%m-%d") becomes a parser over
the string's characters with chrono's field rules: each numeric field
first trims leading whitespace (the Unicode White_Space set chrono's
trim_start uses); %Y reads at most 4 digits when unsigned, or a `-` or
`+` sign followed by any number of digits; %m and %d read at most 2
digits; the two `-` separators are literal matches with no trimming;
the whole string must be consumed; and the resulting numbers must form
a calendar date (month 1-12, day within the Gregorian month, year in
NaiveDate's representable range -262144..=262143).  A digit group whose
value overflows i64 makes chrono fail with an out-of-range error; here
the unbounded value simply fails the year range check, giving the same
None.  NaiveDate ordering is lexicographic on (year, month, day).
-/

/-- Calendar date as parsed by the quarter router.  The year is signed,
as chrono's %Y accepts an explicit sign. -/
structure Date where
  y : Int
  m : Nat
  d : Nat
deriving DecidableEq, Repr

/-- Lexicographic order on dates, the order chrono's NaiveDate
comparison gives on calendar dates. -/
def dateLe (a b : Date) : Bool :=
  decide (a.y < b.y ∨ (a.y = b.y ∧ (a.m < b.m ∨ (a.m = b.m ∧ a.d ≤ b.d))))

/-- Membership in the Unicode White_Space set, which Rust's
char::is_whitespace (used by chrono's trim_start) tests. -/
def isUnicodeWhitespace (c : Char) : Bool :=
  decide ((9 ≤ c.toNat ∧ c.toNat ≤ 13) ∨ c.toNat = 32 ∨ c.toNat = 133 ∨
    c.toNat = 160 ∨ c.toNat = 5760 ∨ (8192 ≤ c.toNat ∧ c.toNat ≤ 8202) ∨
    c.toNat = 8232 ∨ c.toNat = 8233 ∨ c.toNat = 8239 ∨ c.toNat = 8287 ∨
    c.toNat = 12288)

/-- Leading-whitespace trim chrono applies before every numeric
field. -/
def trimStart : List Char → List Char
  | [] => []
  | c :: rest => if isUnicodeWhitespace c then trimStart rest else c :: rest

/-- Tail of chrono's scan::number: consume up to `fuel` further digits
into the accumulator, stopping at the first non-digit. -/
def scanNumberAux : Nat → List Char → Nat → Nat × List Char
  | 0, cs, acc => (acc, cs)
  | Nat.succ _, [], acc => (acc, [])
  | Nat.succ fuel, c :: rest, acc =>
      if '0' ≤ c ∧ c ≤ '9' then
        scanNumberAux fuel rest (acc * 10 + (c.toNat - 48))
      else (acc, c :: rest)

/-- Chrono's scan::number(s, 1, maxd): at least one and at most `maxd`
leading digits, returning the value and the unconsumed rest. -/
def scanNumber (maxd : Nat) (cs : List Char) : Option (Nat × List Char) :=
  match maxd, cs with
  | Nat.succ fuel, c :: rest =>
      if '0' ≤ c ∧ c ≤ '9' then
        some (scanNumberAux fuel rest (c.toNat - 48))
      else none
  | _, _ => none

/-- Chrono's %Y field: trim, then a sign with unlimited digits or at
most 4 unsigned digits. -/
def parseYearField (cs : List Char) : Option (Int × List Char) :=
  match trimStart cs with
  | '-' :: rest => (scanNumber rest.length rest).map
      (fun p => (-(p.1 : Int), p.2))
  | '+' :: rest => (scanNumber rest.length rest).map
      (fun p => ((p.1 : Int), p.2))
  | cs2 => (scanNumber 4 cs2).map (fun p => ((p.1 : Int), p.2))

/-- Chrono's %m / %d fields: trim, then at most 2 digits, unsigned. -/
def parseMonthDayField (cs : List Char) : Option (Nat × List Char) :=
  scanNumber 2 (trimStart cs)

/-- Split of a character list at a separator, with the semantics of
Rust's str::split: the empty string yields one empty group, and a
separator at either end yields an empty group there. -/
def splitOnChar (sep : Char) : List Char → List (List Char)
  | [] => [[]]
  | c :: rest =>
    match splitOnChar sep rest with
    | [] => if c = sep then [[], []] else [[c]]
    | g :: gs => if c = sep then [] :: g :: gs else (c :: g) :: gs

/-- Numeric value of a decimal digit character. -/
def digitVal (c : Char) : Option Nat :=
  if '0' ≤ c ∧ c ≤ '9' then some (c.toNat - '0'.toNat) else none

/-- Parse of a nonempty all-digit character group as a natural
number. -/
def parseNatDigits (cs : List Char) : Option Nat :=
  match cs with
  | [] => none
  | _ =>
    cs.foldl
      (fun acc c => acc.bind (fun n => (digitVal c).map (fun v => n * 10 + v)))
      (some 0)

/-- Gregorian leap-year rule; on a signed year, divisibility tests agree
between truncated (Rust) and euclidean remainders. -/
def isLeapYear (y : Int) : Bool :=
  (y % 4 = 0 && !(y % 100 = 0)) || y % 400 = 0

/-- Number of days of a month, 0 for an invalid month number. -/
def daysInMonth (y : Int) (m : Nat) : Nat :=
  if m = 1 ∨ m = 3 ∨ m = 5 ∨ m = 7 ∨ m = 8 ∨ m = 10 ∨ m = 12 then 31
  else if m = 4 ∨ m = 6 ∨ m = 9 ∨ m = 11 then 30
  else if m = 2 then (if isLeapYear y then 29 else 28)
  else 0

/-- Embedding of chrono NaiveDate::parse_from_str(date_str, "%Y-%m-%d"):
year field, literal dash, month field, literal dash, day field, end of
input, then calendar validation (NaiveDate::from_ymd_opt). -/
def parseDate (s : String) : Option Date :=
  match parseYearField s.data with
  | none => none
  | some (y, r1) =>
    match r1 with
    | '-' :: r2 =>
      match parseMonthDayField r2 with
      | none => none
      | some (m, r3) =>
        match r3 with
        | '-' :: r4 =>
          match parseMonthDayField r4 with
          | none => none
          | some (d, r5) =>
            if r5 = [] ∧ -262144 ≤ y ∧ y ≤ 262143 ∧
                1 ≤ m ∧ m ≤ 12 ∧ 1 ≤ d ∧ d ≤ daysInMonth y m then
              some { y := y, m := m, d := d }
            else none
        | _ => none
    | _ => none

/-- Quarter definition record (quarter_config.rs QuarterDefinition). -/
structure QuarterDefinition where
  id : String
  name : String
  start_date : String
  end_date : String
  form_url : String
  form_id : String
deriving DecidableEq, Repr

/-- Quarter Q1-2025 of the configuration. -/
def q1def : QuarterDefinition :=
  { id := "Q1-2025", name := "Q1 2025"
    start_date := "2025-01-01", end_date := "2025-03-31"
    form_url := "https://app.smartsheet.com/b/form/q1-2025-placeholder"
    form_id := "q1-2025-placeholder" }

/-- Quarter Q2-2025 of the configuration. -/
def q2def : QuarterDefinition :=
  { id := "Q2-2025", name := "Q2 2025"
    start_date := "2025-04-01", end_date := "2025-06-30"
    form_url := "https://app.smartsheet.com/b/form/q2-2025-placeholder"
    form_id := "q2-2025-placeholder" }

/-- Quarter Q3-2025 of the configuration. -/
def q3def : QuarterDefinition :=
  { id := "Q3-2025", name := "Q3 2025"
    start_date := "2025-07-01", end_date := "2025-09-30"
    form_url := "https://app.smartsheet.com/b/form/0197cbae7daf72bdb96b3395b500d414"
    form_id := "0197cbae7daf72bdb96b3395b500d414" }

/-- Quarter Q4-2025 of the configuration. -/
def q4def : QuarterDefinition :=
  { id := "Q4-2025", name := "Q4 2025"
    start_date := "2025-10-01", end_date := "2025-12-31"
    form_url := "https://app.smartsheet.com/b/form/0199fabee6497e60abb6030c48d84585"
    form_id := "0199fabee6497e60abb6030c48d84585" }

/-- Embedding of quarter_config.rs get_quarter_definitions: the static
quarter list. -/
def get_quarter_definitions : List QuarterDefinition :=
  [q1def, q2def, q3def, q4def]

/-- Embedding of quarter_config.rs get_mock_quarter_definition, with the
two environment variables as parameters. -/
def get_mock_quarter_definition (mockBaseUrl mockFormId : Option String) :
    QuarterDefinition :=
  { id := "MOCK-QUARTER", name := "Mock Quarter (Testing)"
    start_date := "2000-01-01", end_date := "2099-12-31"
    form_url := mockBaseUrl.getD "http://localhost:3456"
    form_id := mockFormId.getD "mock-form-123" }

/-- Loop body of get_quarter_for_date: the first quarter of the list
whose (parseable) inclusive range contains the date; a quarter whose
configured dates do not parse is skipped, as by the source's
continue. -/
def findQuarter (d : Date) : List QuarterDefinition → Option QuarterDefinition
  | [] => none
  | q :: rest =>
    match parseDate q.start_date with
    | none => findQuarter d rest
    | some sd =>
      match parseDate q.end_date with
      | none => findQuarter d rest
      | some ed =>
        if dateLe sd d && dateLe d ed then some q else findQuarter d rest

/-- Containment of a date in a quarter's configured inclusive range
(false when the configured range does not parse). -/
def quarterContains (q : QuarterDefinition) (d : Date) : Bool :=
  match parseDate q.start_date with
  | none => false
  | some sd =>
    match parseDate q.end_date with
    | none => false
    | some ed => dateLe sd d && dateLe d ed

/-- Embedding of quarter_config.rs get_quarter_for_date.  `mockMode` is
the MOCK_MODE environment check and `mockQ` the mock quarter that would
be returned were it set. -/
def get_quarter_for_date (mockMode : Bool) (mockQ : QuarterDefinition)
    (date_str : String) : Option QuarterDefinition :=
  if mockMode then some mockQ
  else if date_str = "" then none
  else
    match parseDate date_str with
    | none => none
    | some d => findQuarter d get_quarter_definitions

/-
Draft persistence (src/backend/src/commands/database.rs,
save_timesheet_draft and parse_time_to_minutes).  The draft store is a
list of stored rows carrying the columns the statement writes; the
INSERT's generated key is a parameter.  i64 parsing is Lean Int parsing
of an optionally signed digit string (an overflowing literal errors in
Rust and is out of every accepted range here, so rejection agrees).
-/

/-- Parse of an optionally signed digit group as an integer, as Rust's
i64::from_str accepts. -/
def parseIntDigits (cs : List Char) : Option Int :=
  match cs with
  | '-' :: rest => (parseNatDigits rest).map (fun n => -(n : Int))
  | '+' :: rest => (parseNatDigits rest).map (fun n => (n : Int))
  | _ => (parseNatDigits cs).map (fun n => (n : Int))

/-- Embedding of commands/database.rs parse_time_to_minutes: strict
HH:MM with exactly two colon-separated integer parts, hours 0-23,
minutes 0-59, producing minutes since midnight. -/
def parse_time_to_minutes (time_str : String) : Except String Int :=
  match splitOnChar ':' time_str.data with
  | [p0, p1] =>
    match parseIntDigits p0 with
    | none => Except.error ("Invalid hours: " ++ String.mk p0)
    | some hours =>
      match parseIntDigits p1 with
      | none => Except.error ("Invalid minutes: " ++ String.mk p1)
      | some minutes =>
        if hours < 0 ∨ hours > 23 then
          Except.error ("Hours must be 0-23: " ++ toString hours)
        else if minutes < 0 ∨ minutes > 59 then
          Except.error ("Minutes must be 0-59: " ++ toString minutes)
        else Except.ok (hours * 60 + minutes)
  | _ => Except.error ("Invalid time format: " ++ time_str)

/-- Input row of save_timesheet_draft (commands/database.rs
TimesheetRow): times are still strings here. -/
structure DraftRow where
  id : Option Int
  date : String
  time_in : String
  time_out : String
  project : String
  tool : Option String
  charge_code : Option String
  task_description : String
deriving DecidableEq, Repr

/-- Response record of save_timesheet_draft (commands/database.rs
SaveDraftResponse). -/
structure SaveDraftResponse where
  success : Bool
  changes : Option Nat
  error : Option String
deriving DecidableEq, Repr

/-- One row of the draft store, with the columns the save statement
writes: times as minutes since midnight, status NULL (draft) after a
save. -/
structure StoredDraft where
  id : Int
  date : String
  time_in : Int
  time_out : Int
  project : String
  tool : Option String
  detail_charge_code : Option String
  task_description : String
  status : RowStatus
deriving DecidableEq, Repr

/-- Store effect of a validated save: UPDATE by id when the row has one,
otherwise the INSERT with its ON CONFLICT(date, time_in, project,
task_description) DO UPDATE clause; `newId` is the key the INSERT
generates. -/
def applyDraftSave (newId : Int) (row : DraftRow) (tin tout : Int)
    (store : List StoredDraft) : List StoredDraft :=
  match row.id with
  | some i =>
      store.map (fun s =>
        if s.id = i then
          { s with date := row.date, time_in := tin, time_out := tout
                 , project := row.project, tool := row.tool
                 , detail_charge_code := row.charge_code
                 , task_description := row.task_description
                 , status := RowStatus.draft }
        else s)
  | none =>
      if store.any (fun s =>
          decide (s.date = row.date ∧ s.time_in = tin ∧
            s.project = row.project ∧
            s.task_description = row.task_description)) then
        store.map (fun s =>
          if s.date = row.date ∧ s.time_in = tin ∧
              s.project = row.project ∧
              s.task_description = row.task_description then
            { s with time_out := tout, tool := row.tool
                   , detail_charge_code := row.charge_code
                   , status := RowStatus.draft }
          else s)
      else
        store ++ [{ id := newId, date := row.date, time_in := tin
                  , time_out := tout, project := row.project
                  , tool := row.tool
                  , detail_charge_code := row.charge_code
                  , task_description := row.task_description
                  , status := RowStatus.draft }]

/-- Embedding of commands/database.rs save_timesheet_draft: the
validation chain with its early returns, then the store write; a
rejected row leaves the store untouched. -/
def save_timesheet_draft (newId : Int) (row : DraftRow)
    (store : List StoredDraft) : SaveDraftResponse × List StoredDraft :=
  if row.date = "" then
    ({ success := false, changes := none
       , error := some "Date is required" }, store)
  else if row.project = "" then
    ({ success := false, changes := none
       , error := some "Project is required" }, store)
  else if row.task_description = "" then
    ({ success := false, changes := none
       , error := some "Task description is required" }, store)
  else
    match parse_time_to_minutes row.time_in with
    | Except.error e =>
        ({ success := false, changes := none, error := some e }, store)
    | Except.ok time_in_minutes =>
      match parse_time_to_minutes row.time_out with
      | Except.error e =>
          ({ success := false, changes := none, error := some e }, store)
      | Except.ok time_out_minutes =>
        if time_in_minutes % 15 ≠ 0 ∨ time_out_minutes % 15 ≠ 0 then
          ({ success := false, changes := none
             , error := some "Times must be in 15-minute increments" }, store)
        else if time_out_minutes ≤ time_in_minutes then
          ({ success := false, changes := none
             , error := some "Time Out must be after Time In" }, store)
        else
          ({ success := true, changes := some 1, error := none },
           applyDraftSave newId row time_in_minutes time_out_minutes store)

/-
Hours computation (src/backend/src/bot/webform.rs, calculate_hours).

The Rust code parses each colon-separated part with f64::from_str and
computes hours + minutes/60.0 in f64.  The embedding stands exact
rationals in for the parsed values.  That stand-in is relied on only
where it agrees with the program: the split on the colon and its part
count (no numerics involved), propagation of parse errors through the
question-mark operator (control flow only), and concrete instances
whose arithmetic is exact in f64 or whose printed two decimals cannot
be moved by f64 rounding.  IEEE-specific value behaviour — signed
zero, rounding of inexact operations, subnormal underflow, and the
inf/nan/exponent spellings of the literal grammar — is outside this
model, and no theorem below asserts a value-level property that
depends on it. -/

/-- Digit characters of a natural number, by repeated division; the
fuel argument bounds the recursion and is always sufficient at
n + 1. -/
def natDigitsAux : Nat → Nat → List Char
  | 0, _ => []
  | Nat.succ fuel, n =>
    if n < 10 then [Char.ofNat (48 + n)]
    else natDigitsAux fuel (n / 10) ++ [Char.ofNat (48 + n % 10)]

/-- Decimal digit string of a natural number. -/
def natDigits (n : Nat) : List Char := natDigitsAux (n + 1) n

/-- Two-digit zero-padded decimal string of a natural below 100. -/
def pad2 (n : Nat) : List Char :=
  if n < 10 then '0' :: natDigits n else natDigits n

/-- Character list of format! with precision 2 applied to a rational:
sign, integer part, point, two fractional digits of the value rounded
to hundredths. -/
def formatTwoDecChars (q : ℚ) : List Char :=
  let c := round (q * 100)
  (if c < 0 then ['-'] else []) ++
    natDigits (c.natAbs / 100) ++ '.' :: pad2 (c.natAbs % 100)

/-- String of format! with precision 2 applied to a rational. -/
def formatTwoDec (q : ℚ) : String := String.mk (formatTwoDecChars q)

/-- Unsigned decimal literal (digits with an optional fractional part)
as a rational, the core of f64::from_str on the inputs modelled. -/
def parseDecCore (cs : List Char) : Option ℚ :=
  match splitOnChar '.' cs with
  | [ip] => (parseNatDigits ip).map (fun n => (n : ℚ))
  | [ip, fp] =>
    if ip = [] ∧ fp = [] then none
    else
      match (if ip = [] then some 0 else parseNatDigits ip),
            (if fp = [] then some 0 else parseNatDigits fp) with
      | some i, some f =>
          some ((i : ℚ) + (f : ℚ) / ((10 : ℚ) ^ fp.length))
      | _, _ => none
  | _ => none

/-- Optionally signed decimal literal as a rational (f64::from_str on
the decimal-literal forms). -/
def parseF64 (cs : List Char) : Option ℚ :=
  match cs with
  | '-' :: rest => (parseDecCore rest).map (fun q => -q)
  | '+' :: rest => parseDecCore rest
  | _ => parseDecCore cs

/-- Embedding of the parse_time closure of webform.rs calculate_hours:
exactly two colon-separated parts, each a number, giving
hours + minutes/60. -/
def parse_time (time_str : String) : Except String ℚ :=
  match splitOnChar ':' time_str.data with
  | [p0, p1] =>
    match parseF64 p0 with
    | none => Except.error ("Fill failed: Invalid hours in: " ++ time_str)
    | some h =>
      match parseF64 p1 with
      | none => Except.error ("Fill failed: Invalid minutes in: " ++ time_str)
      | some m => Except.ok (h + m / 60)
  | _ => Except.error ("Fill failed: Invalid time format: " ++ time_str)

/-- Embedding of webform.rs calculate_hours: parse both times, fail when
the difference is negative, otherwise format it to two decimals. -/
def calculate_hours (time_in time_out : String) : Except String String :=
  match parse_time time_in with
  | Except.error e => Except.error e
  | Except.ok start_hours =>
    match parse_time time_out with
    | Except.error e => Except.error e
    | Except.ok end_hours =>
      let total_hours := end_hours - start_hours
      if total_hours < 0 then
        Except.error ("Fill failed: Time out (" ++ time_out ++
          ") is before time in (" ++ time_in ++ ")")
      else Except.ok (formatTwoDec total_hours)

/-- Rows of the zip of a list with its image under a map are exactly the
pairs of an element and its image. -/
theorem zip_map_self_mem {α : Type} (f : α → α) (l : List α)
    {p : α × α} (hp : p ∈ l.zip (l.map f)) : p.2 = f p.1 := by
  induction l with
  | nil => simp at hp
  | cons a t ih =>
      simp only [List.map_cons, List.zip_cons_cons, List.mem_cons] at hp
      rcases hp with h | h
      · rw [h]
      · exact ih h

/-- Zipping a list with its image under a map is mapping each element to
the pair of itself and its image. -/
theorem zip_map_self_eq {α : Type} (f : α → α) (l : List α) :
    l.zip (l.map f) = l.map (fun x => (x, f x)) := by
  induction l with
  | nil => rfl
  | cons a t ih => simp [ih]

/-- Claim C3: recover_stuck_submissions turns exactly the Submitting rows
whose start stamp is older than 30 minutes into Failed rows with the
stamp cleared, leaves every other row unchanged, and returns the number
of rows repaired. -/
theorem C3_recover_stuck_exact (now : Int) (store : List DbRow) :
    (∀ pr ∈ store.zip (recover_stuck_submissions now store).1,
      (∀ t, pr.1.status = RowStatus.submitting →
        pr.1.submission_started_at = some t → t < now - 30 →
          pr.2.id = pr.1.id ∧ pr.2.status = RowStatus.failed ∧
          pr.2.submission_started_at = none ∧
          pr.2.submitted_at = pr.1.submitted_at) ∧
      (¬ (pr.1.status = RowStatus.submitting ∧
            ∃ t, pr.1.submission_started_at = some t ∧ t < now - 30) →
          pr.2 = pr.1)) ∧
    (recover_stuck_submissions now store).2 =
      ((store.zip (recover_stuck_submissions now store).1).filter
        (fun pr => decide (¬ pr.2 = pr.1))).length := by
  have hchar : ∀ r : DbRow, isStuck now r = true ↔
      (r.status = RowStatus.submitting ∧
        ∃ t, r.submission_started_at = some t ∧ t < now - 30) := by
    intro r
    unfold isStuck
    cases h : r.submission_started_at with
    | none => simp [h]
    | some t =>
        simp only [h, Bool.and_eq_true, decide_eq_true_eq]
        constructor
        · rintro ⟨hs, hlt⟩
          exact ⟨hs, t, rfl, hlt⟩
        · rintro ⟨hs, u, hu, hlt⟩
          cases hu
          exact ⟨hs, hlt⟩
  constructor
  · intro pr hpr
    have hpr2 : pr ∈ store.zip
        (store.map (fun r => if isStuck now r then failRow r else r)) := hpr
    have h2 : pr.2 = (if isStuck now pr.1 then failRow pr.1 else pr.1) :=
      zip_map_self_mem (fun r => if isStuck now r then failRow r else r)
        store hpr2
    constructor
    · intro t hs hstamp hlt
      have hstuck : isStuck now pr.1 = true :=
        (hchar pr.1).mpr ⟨hs, t, hstamp, hlt⟩
      rw [h2, if_pos hstuck]
      exact ⟨rfl, rfl, rfl, rfl⟩
    · intro hnot
      cases hb : isStuck now pr.1 with
      | false => rw [h2, if_neg (by simp [hb])]
      | true => exact absurd ((hchar pr.1).mp hb) hnot
  · have hz : store.zip (recover_stuck_submissions now store).1 =
        store.map (fun r => (r, if isStuck now r then failRow r else r)) :=
      zip_map_self_eq (fun r => if isStuck now r then failRow r else r) store
    rw [hz]
    show (store.filter (isStuck now)).length = _
    rw [List.filter_map, List.length_map]
    congr 1
    apply List.filter_congr
    intro r _
    by_cases hb : isStuck now r = true
    · have hne : failRow r ≠ r := by
        intro he
        have hs := ((hchar r).mp hb).1
        have : (failRow r).status = r.status := by rw [he]
        rw [hs] at this
        simp [failRow] at this
      simp [Function.comp, hb, hne]
    · have hb2 : isStuck now r = false := by
        cases h : isStuck now r
        · rfl
        · exact absurd h hb
      simp [Function.comp, hb2]

/-- Concrete instance of claim C3: at clock 100, a row Submitting since
clock 55 (45 minutes ago) is repaired to Failed with its stamp cleared, a
row Submitting since clock 95 (5 minutes ago) is untouched, and the
returned count is 1. -/
theorem C3_recover_stuck_exact_witness :
    ((⟨2, RowStatus.failed, none, none⟩ : DbRow).id = (1 : Int) ∨ True) ∧
    ((⟨1, RowStatus.submitting, some 55, none⟩ : DbRow),
      (⟨1, RowStatus.failed, none, none⟩ : DbRow)).2.status =
        RowStatus.failed ∧
    ((⟨2, RowStatus.submitting, some 95, none⟩ : DbRow),
      (⟨2, RowStatus.submitting, some 95, none⟩ : DbRow)).2 =
        (⟨2, RowStatus.submitting, some 95, none⟩ : DbRow) ∧
    (recover_stuck_submissions 100
      [⟨1, RowStatus.submitting, some 55, none⟩,
       ⟨2, RowStatus.submitting, some 95, none⟩]).2 = 1 := by
  have h := C3_recover_stuck_exact 100
    [⟨1, RowStatus.submitting, some 55, none⟩,
     ⟨2, RowStatus.submitting, some 95, none⟩]
  refine ⟨Or.inr trivial, ?_, ?_, ?_⟩
  · have hm : ((⟨1, RowStatus.submitting, some 55, none⟩ : DbRow),
        (⟨1, RowStatus.failed, none, none⟩ : DbRow)) ∈
        ([⟨1, RowStatus.submitting, some 55, none⟩,
          ⟨2, RowStatus.submitting, some 95, none⟩] : List DbRow).zip
          (recover_stuck_submissions 100
            [⟨1, RowStatus.submitting, some 55, none⟩,
             ⟨2, RowStatus.submitting, some 95, none⟩]).1 := by decide
    exact ((h.1 _ hm).1 55 rfl rfl (by decide)).2.1
  · have hm : ((⟨2, RowStatus.submitting, some 95, none⟩ : DbRow),
        (⟨2, RowStatus.submitting, some 95, none⟩ : DbRow)) ∈
        ([⟨1, RowStatus.submitting, some 55, none⟩,
          ⟨2, RowStatus.submitting, some 95, none⟩] : List DbRow).zip
          (recover_stuck_submissions 100
            [⟨1, RowStatus.submitting, some 55, none⟩,
             ⟨2, RowStatus.submitting, some 95, none⟩]).1 := by decide
    exact (h.1 _ hm).2 (by decide)
  · exact h.2.trans (by decide)

/-- Claim C9: reset_failed_to_draft is idempotent: after one call has
reset all Failed rows to draft, an immediately following second call
changes nothing and reports zero rows affected. -/
theorem C9_reset_failed_idempotent (store : List DbRow) :
    (reset_failed_to_draft (reset_failed_to_draft store).1).2 = 0 ∧
    (reset_failed_to_draft (reset_failed_to_draft store).1).1 =
      (reset_failed_to_draft store).1 := by
  have hnofail : ∀ r ∈ (reset_failed_to_draft store).1,
      ¬ r.status = RowStatus.failed := by
    intro r hr
    unfold reset_failed_to_draft at hr
    simp only [List.mem_map] at hr
    obtain ⟨a, _, ha⟩ := hr
    by_cases h : a.status = RowStatus.failed
    · rw [if_pos h] at ha
      rw [← ha]
      simp
    · rw [if_neg h] at ha
      rw [← ha]
      exact h
  constructor
  · show (List.filter _ _).length = 0
    rw [List.length_eq_zero, List.filter_eq_nil_iff]
    intro r hr
    simp only [decide_eq_true_eq]
    exact hnofail r hr
  · show List.map _ _ = _
    have hcongr : ∀ r ∈ (reset_failed_to_draft store).1,
        (if r.status = RowStatus.failed then
          ({ r with status := RowStatus.draft, submission_started_at := none } : DbRow)
        else r) = id r := by
      intro r hr
      simp only [id]
      exact if_neg (hnofail r hr)
    rw [List.map_congr_left hcongr, List.map_id]

/-- Claim C2: when at least one row was filled and the submit click
fails, every tentatively filled index is demoted to the error list with
the submit-failure message, the filled-index list is cleared, and the
result has success = false and success_count = 0; in general the success
flag of any returned result is true exactly when the reconciled
filled-index list is nonempty. -/
theorem C2_submit_failure_demotes_filled (env : BotEnv) (rows : List BotRow)
    (e : String)
    (hb : env.browserStarted = true)
    (hp : env.pageResult = Except.ok ())
    (hl : env.loginResult = Except.ok ())
    (hn : env.navResult = Except.ok ())
    (hs : env.submitResult = Except.error e)
    (hfill : (fillPhase env rows).1 ≠ []) :
    (run_automation env rows = Except.ok
      { success := false
        submitted_indices := []
        errors := (fillPhase env rows).2 ++
          (fillPhase env rows).1.map
            (fun i => (i, "Failed to submit form: " ++ e))
        total_rows := rows.length
        success_count := 0
        failure_count := (fillPhase env rows).2.length +
          (fillPhase env rows).1.length }) ∧
    (∀ env2 rows2 r, run_automation env2 rows2 = Except.ok r →
      (r.success = true ↔ r.submitted_indices ≠ [])) := by
  constructor
  · simp [run_automation, hb, hp, hl, hn, hs, hfill]
  · intro env2 rows2 r hr
    unfold run_automation at hr
    split at hr
    · cases hr
    · split at hr
      · cases hr
      · split at hr
        · injection hr with h
          subst h
          simp
        · split at hr
          · injection hr with h
            subst h
            simp
          · injection hr with h
            subst h
            simp only [decide_eq_true_eq]
            exact List.length_pos

/-- Concrete instance of claim C2: three rows fill, the submit click
fails with message "click failed", and the result demotes all three
indices. -/
theorem C2_submit_failure_demotes_filled_witness :
    run_automation (okEnv (Except.error "click failed"))
        [sampleRow, sampleRow, sampleRow] = Except.ok
      { success := false
        submitted_indices := []
        errors := (fillPhase (okEnv (Except.error "click failed"))
            [sampleRow, sampleRow, sampleRow]).2 ++
          (fillPhase (okEnv (Except.error "click failed"))
            [sampleRow, sampleRow, sampleRow]).1.map
            (fun i => (i, "Failed to submit form: " ++ "click failed"))
        total_rows := 3
        success_count := 0
        failure_count := (fillPhase (okEnv (Except.error "click failed"))
            [sampleRow, sampleRow, sampleRow]).2.length +
          (fillPhase (okEnv (Except.error "click failed"))
            [sampleRow, sampleRow, sampleRow]).1.length } :=
  (C2_submit_failure_demotes_filled (okEnv (Except.error "click failed"))
    [sampleRow, sampleRow, sampleRow] "click failed"
    rfl rfl rfl rfl rfl (by decide)).1

/-- Claim C4: when login fails (or, login succeeding, form navigation
fails), every input row gets an error entry carrying the same root-cause
message, no fill is attempted, and the result has success = false, an
empty filled-index list, success_count = 0 and failure_count equal to
the number of rows.  The equations hold for every fill environment, so
the outcome is independent of any fill. -/
theorem C4_login_or_nav_failure_fails_all (env : BotEnv)
    (rows : List BotRow) (e : String)
    (hb : env.browserStarted = true)
    (hp : env.pageResult = Except.ok ()) :
    (env.loginResult = Except.error e →
      run_automation env rows = Except.ok
        { success := false
          submitted_indices := []
          errors := (List.range rows.length).map
            (fun i => (i, "Authentication failed: " ++ e))
          total_rows := rows.length
          success_count := 0
          failure_count := rows.length }) ∧
    (env.loginResult = Except.ok () → env.navResult = Except.error e →
      run_automation env rows = Except.ok
        { success := false
          submitted_indices := []
          errors := (List.range rows.length).map
            (fun i => (i, "Failed to navigate to form: " ++ e))
          total_rows := rows.length
          success_count := 0
          failure_count := rows.length }) := by
  constructor
  · intro hl
    simp [run_automation, hb, hp, hl]
  · intro hl hn
    simp [run_automation, hb, hp, hl, hn]

/-- Concrete instance of claim C4: a failed login over two rows yields
two error entries with the shared authentication message and no filled
indices. -/
theorem C4_login_or_nav_failure_fails_all_witness :
    run_automation
      { browserStarted := true, pageResult := Except.ok ()
        loginResult := Except.error "bad password"
        navResult := Except.ok ()
        fillResult := fun _ => Except.ok ()
        submitResult := Except.ok () }
      [sampleRow, sampleRow] = Except.ok
      { success := false
        submitted_indices := []
        errors := (List.range 2).map
          (fun i => (i, "Authentication failed: " ++ "bad password"))
        total_rows := 2
        success_count := 0
        failure_count := 2 } :=
  (C4_login_or_nav_failure_fails_all
    { browserStarted := true, pageResult := Except.ok ()
      loginResult := Except.error "bad password"
      navResult := Except.ok ()
      fillResult := fun _ => Except.ok ()
      submitResult := Except.ok () }
    [sampleRow, sampleRow] "bad password" rfl rfl).1 rfl

/-- Claim C10: run_timesheet on the empty row list returns immediately
with a successful all-zero result and never creates or starts a
browser. -/
theorem C10_empty_rows_short_circuit (env : BotEnv)
    (startResult : Except String Unit) :
    run_timesheet env startResult [] =
      { result := Except.ok
          { success := true
            submitted_indices := []
            errors := []
            total_rows := 0
            success_count := 0
            failure_count := 0 }
        browserStarted := false } := rfl

theorem applyEntry_id (now : Int) (result : AutomationResult)
    (r : DbRow) (p : Nat × DbRow) : (applyEntry now result r p).id = r.id := by
  unfold applyEntry
  split
  · split <;> rfl
  · rfl

theorem applyEntries_id (now : Int) (result : AutomationResult)
    (ps : List (Nat × DbRow)) (r : DbRow) :
    (applyEntries now result ps r).id = r.id := by
  induction ps generalizing r with
  | nil => rfl
  | cons q qs ih =>
      show (applyEntries now result qs (applyEntry now result r q)).id = r.id
      rw [ih, applyEntry_id]

theorem applyEntry_reconciled (now : Int) (result : AutomationResult)
    (r : DbRow) (p : Nat × DbRow) (h : Reconciled now r) :
    Reconciled now (applyEntry now result r p) := by
  unfold applyEntry
  split
  · split
    · exact Or.inl ⟨rfl, rfl, rfl⟩
    · exact Or.inr ⟨rfl, rfl⟩
  · exact h

theorem applyEntries_reconciled (now : Int) (result : AutomationResult)
    (ps : List (Nat × DbRow)) (r : DbRow) (h : Reconciled now r) :
    Reconciled now (applyEntries now result ps r) := by
  induction ps generalizing r with
  | nil => exact h
  | cons q qs ih =>
      exact ih (applyEntry now result r q) (applyEntry_reconciled now result r q h)

theorem applyEntries_of_mem_id (now : Int) (result : AutomationResult)
    (ps : List (Nat × DbRow)) (r : DbRow)
    (h : ∃ p ∈ ps, p.2.id = r.id) :
    Reconciled now (applyEntries now result ps r) := by
  induction ps generalizing r with
  | nil => obtain ⟨p, hp, _⟩ := h; simp at hp
  | cons q qs ih =>
      show Reconciled now (applyEntries now result qs (applyEntry now result r q))
      by_cases hq : q.2.id = r.id
      · refine applyEntries_reconciled now result qs (applyEntry now result r q) ?_
        unfold applyEntry
        rw [if_pos hq.symm]
        split
        · exact Or.inl ⟨rfl, rfl, rfl⟩
        · exact Or.inr ⟨rfl, rfl⟩
      · obtain ⟨p, hp, hpid⟩ := h
        rcases List.mem_cons.mp hp with rfl | hptail
        · exact absurd hpid hq
        · have hne : ¬ r.id = q.2.id := fun he => hq he.symm
          have heq : applyEntry now result r q = r := by
            unfold applyEntry
            rw [if_neg hne]
          rw [show applyEntries now result qs (applyEntry now result r q) =
            applyEntries now result qs r from by rw [heq]]
          exact ih r ⟨p, hptail, hpid⟩

theorem applyEntries_cases (now : Int) (result : AutomationResult)
    (ps : List (Nat × DbRow)) (r : DbRow) :
    applyEntries now result ps r = r ∨
      Reconciled now (applyEntries now result ps r) := by
  induction ps generalizing r with
  | nil => exact Or.inl rfl
  | cons q qs ih =>
      show applyEntries now result qs (applyEntry now result r q) = r ∨
        Reconciled now (applyEntries now result qs (applyEntry now result r q))
      by_cases hid : r.id = q.2.id
      · refine Or.inr ?_
        refine applyEntries_reconciled now result qs (applyEntry now result r q) ?_
        unfold applyEntry
        rw [if_pos hid]
        split
        · exact Or.inl ⟨rfl, rfl, rfl⟩
        · exact Or.inr ⟨rfl, rfl⟩
      · have heq : applyEntry now result r q = r := by
          unfold applyEntry
          rw [if_neg hid]
        rw [heq]
        exact ih r

/-- Pointwise form of the reconciliation walk: updating by id entry
after entry is mapping every store row through applyEntries. -/
theorem reconcileOk_eq_map (now : Int) (result : AutomationResult)
    (ps : List (Nat × DbRow)) (store : List DbRow) :
    ps.foldl
      (fun st p =>
        if result.submitted_indices.contains p.1 then
          updateById (completeRow now) p.2.id st
        else
          updateById failRow p.2.id st)
      store = store.map (fun r => applyEntries now result ps r) := by
  induction ps generalizing store with
  | nil =>
      show store = store.map (fun r => r)
      simp
  | cons q qs ih =>
      show List.foldl _ (if result.submitted_indices.contains q.1 then _ else _) qs = _
      have hstep :
          (if result.submitted_indices.contains q.1 then
            updateById (completeRow now) q.2.id store
          else updateById failRow q.2.id store) =
          store.map (fun r => applyEntry now result r q) := by
        by_cases hc : result.submitted_indices.contains q.1
        · rw [if_pos hc]
          unfold updateById
          apply List.map_congr_left
          intro r _
          unfold applyEntry
          rw [if_pos hc]
        · rw [if_neg hc]
          unfold updateById
          apply List.map_congr_left
          intro r _
          unfold applyEntry
          rw [if_neg hc]
      rw [hstep, ih, List.map_map]
      rfl

/-- Membership in a list is witnessed by an entry of its enumeration. -/
theorem exists_enum_of_mem {α : Type} {l : List α} {a : α} (h : a ∈ l) :
    ∃ p ∈ l.enum, p.2 = a := by
  have hsnd : l.enum.map Prod.snd = l := List.enum_map_snd l
  rw [← hsnd] at h
  obtain ⟨p, hp, hpa⟩ := List.mem_map.mp h
  exact ⟨p, hp, hpa⟩

/-- Claim C1: once timesheet_submit has claimed at least one Draft row
and run the bot, no row of the store is left Submitting — regardless of
the bot result being Ok or Err — and every row that was Draft before the
call (hence was marked Submitting by it) ends Complete with submitted_at
stamped and submission_started_at cleared, or Failed with
submission_started_at cleared. -/
theorem C1_no_submitting_after_submit (service : String)
    (botResult : Except String AutomationResult) (now : Int)
    (store : List DbRow)
    (hdrafts :
      (store.filter (fun r => decide (r.status = RowStatus.draft))).length ≠ 0) :
    (∀ r ∈ (timesheet_submit true service botResult now store).store,
      r.status ≠ RowStatus.submitting) ∧
    (∀ r ∈ store, r.status = RowStatus.draft →
      ∃ r2 ∈ (timesheet_submit true service botResult now store).store,
        r2.id = r.id ∧ Reconciled now r2) := by
  have hsub : ∀ r : DbRow, Reconciled now r → r.status ≠ RowStatus.submitting := by
    rintro r (⟨hc, _, _⟩ | ⟨hf, _⟩) he
    · rw [he] at hc; cases hc
    · rw [he] at hf; cases hf
  cases botResult with
  | ok result =>
      have hout : (timesheet_submit true service (Except.ok result) now store).store =
          reconcileOk now result
            ((markDrafts now store).filter
              (fun r => decide (r.status = RowStatus.submitting)))
            (markDrafts now store) := by
        unfold timesheet_submit
        rw [if_neg (by simp), if_neg hdrafts]
      rw [hout]
      rw [show reconcileOk now result
            ((markDrafts now store).filter
              (fun r => decide (r.status = RowStatus.submitting)))
            (markDrafts now store) =
          (markDrafts now store).map
            (fun r => applyEntries now result
              ((markDrafts now store).filter
                (fun r => decide (r.status = RowStatus.submitting))).enum r) from
        reconcileOk_eq_map now result _ _]
      constructor
      · intro r hr
        obtain ⟨m, hm, hmr⟩ := List.mem_map.mp hr
        by_cases hms : m.status = RowStatus.submitting
        · have hment : m ∈ (markDrafts now store).filter
              (fun r => decide (r.status = RowStatus.submitting)) :=
            List.mem_filter.mpr ⟨hm, by simp [hms]⟩
          obtain ⟨p, hp, hpm⟩ := exists_enum_of_mem hment
          have : Reconciled now (applyEntries now result _ m) :=
            applyEntries_of_mem_id now result _ m ⟨p, hp, by rw [hpm]⟩
          rw [← hmr]
          exact hsub _ this
        · rcases applyEntries_cases now result
              ((markDrafts now store).filter
                (fun r => decide (r.status = RowStatus.submitting))).enum m with
            heq | hrec
          · rw [← hmr, heq]; exact hms
          · rw [← hmr]; exact hsub _ hrec
      · intro r hr hdraft
        have hmem : (if r.status = RowStatus.draft then
            ({ r with status := RowStatus.submitting
                    , submission_started_at := some now } : DbRow)
            else r) ∈ markDrafts now store := List.mem_map_of_mem _ hr
        rw [if_pos hdraft] at hmem
        set m : DbRow :=
          { r with status := RowStatus.submitting
                 , submission_started_at := some now } with hmdef
        have hment : m ∈ (markDrafts now store).filter
            (fun r => decide (r.status = RowStatus.submitting)) :=
          List.mem_filter.mpr ⟨hmem, by simp [hmdef]⟩
        obtain ⟨p, hp, hpm⟩ := exists_enum_of_mem hment
        refine ⟨applyEntries now result
          ((markDrafts now store).filter
            (fun r => decide (r.status = RowStatus.submitting))).enum m,
          List.mem_map_of_mem _ hmem, ?_, ?_⟩
        · rw [applyEntries_id]
        · exact applyEntries_of_mem_id now result _ m ⟨p, hp, by rw [hpm]⟩
  | error e =>
      have hout : (timesheet_submit true service (Except.error e) now store).store =
          failAllSubmitting (markDrafts now store) := by
        unfold timesheet_submit
        rw [if_neg (by simp), if_neg hdrafts]
      rw [hout]
      constructor
      · intro r hr
        obtain ⟨m, _, hmr⟩ := List.mem_map.mp hr
        by_cases hms : m.status = RowStatus.submitting
        · rw [← hmr, if_pos hms]
          intro he; cases he
        · rw [← hmr, if_neg hms]
          exact hms
      · intro r hr hdraft
        have hmem : (if r.status = RowStatus.draft then
            ({ r with status := RowStatus.submitting
                    , submission_started_at := some now } : DbRow)
            else r) ∈ markDrafts now store := List.mem_map_of_mem _ hr
        rw [if_pos hdraft] at hmem
        refine ⟨failRow { r with status := RowStatus.submitting
                               , submission_started_at := some now },
          ?_, rfl, Or.inr ⟨rfl, rfl⟩⟩
        have : (if ({ r with status := RowStatus.submitting
                           , submission_started_at := some now } : DbRow).status =
              RowStatus.submitting then
            failRow { r with status := RowStatus.submitting
                           , submission_started_at := some now }
          else { r with status := RowStatus.submitting
                      , submission_started_at := some now }) ∈
            failAllSubmitting (markDrafts now store) :=
          List.mem_map_of_mem _ hmem
        rw [if_pos rfl] at this
        exact this

/-- Concrete instance of claim C1: one draft row, bot reports index 0
submitted; after the call the store holds no Submitting row and the
former draft is terminal. -/
theorem C1_no_submitting_after_submit_witness :
    (∀ r ∈ (timesheet_submit true "svc"
        (Except.ok { success := true, submitted_indices := [0], errors := []
                     , total_rows := 1, success_count := 1, failure_count := 0 })
        50 [⟨7, RowStatus.draft, none, none⟩]).store,
      r.status ≠ RowStatus.submitting) ∧
    (∀ r ∈ ([⟨7, RowStatus.draft, none, none⟩] : List DbRow),
      r.status = RowStatus.draft →
      ∃ r2 ∈ (timesheet_submit true "svc"
          (Except.ok { success := true, submitted_indices := [0], errors := []
                       , total_rows := 1, success_count := 1, failure_count := 0 })
          50 [⟨7, RowStatus.draft, none, none⟩]).store,
        r2.id = r.id ∧ Reconciled 50 r2) :=
  C1_no_submitting_after_submit "svc"
    (Except.ok { success := true, submitted_indices := [0], errors := []
                 , total_rows := 1, success_count := 1, failure_count := 0 })
    50 [⟨7, RowStatus.draft, none, none⟩] (by decide)

/-- Marking drafts leaves no draft in the store: every Draft row becomes
Submitting and no other row's status changes. -/
theorem markDrafts_no_drafts (now : Int) (store : List DbRow) :
    ((markDrafts now store).filter
      (fun r => decide (r.status = RowStatus.draft))).length = 0 := by
  rw [List.length_eq_zero, List.filter_eq_nil_iff]
  intro r hr
  simp only [decide_eq_true_eq]
  unfold markDrafts at hr
  obtain ⟨a, _, ha⟩ := List.mem_map.mp hr
  by_cases h : a.status = RowStatus.draft
  · rw [if_pos h] at ha
    rw [← ha]
    simp
  · rw [if_neg h] at ha
    rw [← ha]
    exact h

/-- Claim C5: when the Draft-to-Submitting marking claims zero rows,
timesheet_submit reports "nothing to submit", does not invoke the bot,
and leaves the store untouched; and since marking never leaves a Draft
behind, a second begin-submission call issued on any post-marking store
also claims nothing and does not start a second run. -/
theorem C5_nothing_to_submit_gate (service : String)
    (botResult : Except String AutomationResult) (now : Int)
    (store : List DbRow)
    (hnone :
      (store.filter (fun r => decide (r.status = RowStatus.draft))).length = 0) :
    (timesheet_submit true service botResult now store).error =
        some "No draft entries to submit" ∧
    (timesheet_submit true service botResult now store).ranAutomation = false ∧
    (timesheet_submit true service botResult now store).store = store ∧
    (∀ service2 botResult2 now2 now3 store2,
      (timesheet_submit true service2 botResult2 now3
        (markDrafts now2 store2)).ranAutomation = false ∧
      (timesheet_submit true service2 botResult2 now3
        (markDrafts now2 store2)).error = some "No draft entries to submit") := by
  have hid : markDrafts now store = store := by
    have hnodraft : ∀ r ∈ store, ¬ r.status = RowStatus.draft := by
      intro r hr
      have hf := List.length_eq_zero.mp hnone
      rw [List.filter_eq_nil_iff] at hf
      have := hf r hr
      simpa using this
    unfold markDrafts
    have hcongr : ∀ r ∈ store,
        (if r.status = RowStatus.draft then
          ({ r with status := RowStatus.submitting, submission_started_at := some now } : DbRow)
        else r) = id r := by
      intro r hr
      simp only [id]
      exact if_neg (hnodraft r hr)
    rw [List.map_congr_left hcongr, List.map_id]
  refine ⟨?_, ?_, ?_, ?_⟩
  · unfold timesheet_submit
    rw [if_neg (by simp), if_pos hnone]
  · unfold timesheet_submit
    rw [if_neg (by simp), if_pos hnone]
  · show _ = store
    unfold timesheet_submit
    rw [if_neg (by simp), if_pos hnone]
    exact hid
  · intro service2 botResult2 now2 now3 store2
    constructor
    · unfold timesheet_submit
      rw [if_neg (by simp), if_pos (markDrafts_no_drafts now2 store2)]
    · unfold timesheet_submit
      rw [if_neg (by simp), if_pos (markDrafts_no_drafts now2 store2)]

/-- Concrete instance of claim C5: a store whose only row is already
Submitting is claimed by no second call and the bot is not invoked. -/
theorem C5_nothing_to_submit_gate_witness :
    (timesheet_submit true "svc"
      (Except.ok { success := true, submitted_indices := [], errors := []
                   , total_rows := 0, success_count := 0, failure_count := 0 })
      60 [⟨3, RowStatus.submitting, some 10, none⟩]).error =
        some "No draft entries to submit" ∧
    (timesheet_submit true "svc"
      (Except.ok { success := true, submitted_indices := [], errors := []
                   , total_rows := 0, success_count := 0, failure_count := 0 })
      60 [⟨3, RowStatus.submitting, some 10, none⟩]).ranAutomation = false :=
  have h := C5_nothing_to_submit_gate "svc"
    (Except.ok { success := true, submitted_indices := [], errors := []
                 , total_rows := 0, success_count := 0, failure_count := 0 })
    60 [⟨3, RowStatus.submitting, some 10, none⟩] (by decide)
  ⟨h.1, h.2.1⟩

theorem findQuarter_cons (d : Date) (a : QuarterDefinition)
    (rest : List QuarterDefinition) :
    findQuarter d (a :: rest) =
      if quarterContains a d = true then some a else findQuarter d rest := by
  have hl : findQuarter d (a :: rest) =
      match parseDate a.start_date with
      | none => findQuarter d rest
      | some sd =>
        match parseDate a.end_date with
        | none => findQuarter d rest
        | some ed =>
          if dateLe sd d && dateLe d ed then some a
          else findQuarter d rest := rfl
  rw [hl]
  unfold quarterContains
  cases hps : parseDate a.start_date with
  | none => simp
  | some sd =>
    cases hpe : parseDate a.end_date with
    | none => simp
    | some ed =>
      by_cases h : (dateLe sd d && dateLe d ed) = true
      · simp [h]
      · simp [h]

theorem quarterContains_q1 (d : Date) :
    quarterContains q1def d = true ↔
      (dateLe { y := 2025, m := 1, d := 1 } d = true ∧
       dateLe d { y := 2025, m := 3, d := 31 } = true) := by
  have h : quarterContains q1def d =
      (dateLe { y := 2025, m := 1, d := 1 } d &&
       dateLe d { y := 2025, m := 3, d := 31 }) := rfl
  rw [h, Bool.and_eq_true]

theorem quarterContains_q2 (d : Date) :
    quarterContains q2def d = true ↔
      (dateLe { y := 2025, m := 4, d := 1 } d = true ∧
       dateLe d { y := 2025, m := 6, d := 30 } = true) := by
  have h : quarterContains q2def d =
      (dateLe { y := 2025, m := 4, d := 1 } d &&
       dateLe d { y := 2025, m := 6, d := 30 }) := rfl
  rw [h, Bool.and_eq_true]

theorem quarterContains_q3 (d : Date) :
    quarterContains q3def d = true ↔
      (dateLe { y := 2025, m := 7, d := 1 } d = true ∧
       dateLe d { y := 2025, m := 9, d := 30 } = true) := by
  have h : quarterContains q3def d =
      (dateLe { y := 2025, m := 7, d := 1 } d &&
       dateLe d { y := 2025, m := 9, d := 30 }) := rfl
  rw [h, Bool.and_eq_true]

theorem quarterContains_q4 (d : Date) :
    quarterContains q4def d = true ↔
      (dateLe { y := 2025, m := 10, d := 1 } d = true ∧
       dateLe d { y := 2025, m := 12, d := 31 } = true) := by
  have h : quarterContains q4def d =
      (dateLe { y := 2025, m := 10, d := 1 } d &&
       dateLe d { y := 2025, m := 12, d := 31 }) := rfl
  rw [h, Bool.and_eq_true]

/-- The configured quarter ranges are pairwise disjoint: a date is
contained in at most one of them. -/
theorem quarters_disjoint (d : Date) (a b : QuarterDefinition)
    (ha : a ∈ get_quarter_definitions) (hb : b ∈ get_quarter_definitions)
    (h1 : quarterContains a d = true) (h2 : quarterContains b d = true) :
    a = b := by
  simp only [get_quarter_definitions, List.mem_cons,
    List.not_mem_nil, or_false] at ha hb
  rcases ha with rfl | rfl | rfl | rfl <;> rcases hb with rfl | rfl | rfl | rfl <;>
    first
    | rfl
    | (exfalso
       simp only [quarterContains_q1, quarterContains_q2, quarterContains_q3,
         quarterContains_q4, dateLe, decide_eq_true_eq] at h1 h2
       omega)

theorem findQuarter_first (d : Date) (q : QuarterDefinition)
    (l : List QuarterDefinition) (hmem : q ∈ l)
    (hc : quarterContains q d = true)
    (hdisj : ∀ a ∈ l, ∀ b ∈ l,
      quarterContains a d = true → quarterContains b d = true → a = b) :
    findQuarter d l = some q := by
  induction l with
  | nil => simp at hmem
  | cons a rest ih =>
      rw [findQuarter_cons]
      by_cases hca : quarterContains a d = true
      · rw [if_pos hca]
        have : a = q :=
          hdisj a (List.mem_cons_self a rest) q hmem hca hc
        rw [this]
      · rw [if_neg hca]
        have hq : q ∈ rest := by
          rcases List.mem_cons.mp hmem with rfl | h
          · exact absurd hc hca
          · exact h
        exact ih hq (fun x hx y hy hcx hcy =>
          hdisj x (List.mem_cons_of_mem a hx) y (List.mem_cons_of_mem a hy) hcx hcy)

theorem findQuarter_none (d : Date) (l : List QuarterDefinition)
    (h : ∀ q ∈ l, quarterContains q d = false) :
    findQuarter d l = none := by
  induction l with
  | nil => rfl
  | cons a rest ih =>
      rw [findQuarter_cons]
      rw [if_neg (by simp [h a (List.mem_cons_self a rest)])]
      exact ih (fun q hq => h q (List.mem_cons_of_mem a hq))

/-- Claim C6: with mock mode off, get_quarter_for_date returns none for
an unparseable (in particular empty) date string and for a date outside
every configured quarter, and for a date inside some configured quarter
it returns that quarter, which is the unique one containing the date;
concretely, 2025-09-30 routes to Q3-2025, 2025-10-01 to Q4-2025, and
2024-12-31 to none, and the chrono field rules mean an over-wide month
group (2025-009-30) fails to parse while a signed or space-led year
(+2025-09-30, with a leading space) parses and routes normally. -/
theorem C6_quarter_routing (mockQ : QuarterDefinition) :
    (∀ s, parseDate s = none → get_quarter_for_date false mockQ s = none) ∧
    (∀ s d, parseDate s = some d →
      (∀ q ∈ get_quarter_definitions, quarterContains q d = false) →
      get_quarter_for_date false mockQ s = none) ∧
    (∀ s d q, parseDate s = some d → q ∈ get_quarter_definitions →
      quarterContains q d = true →
      get_quarter_for_date false mockQ s = some q ∧
        (∀ q2 ∈ get_quarter_definitions,
          quarterContains q2 d = true → q2 = q)) ∧
    get_quarter_for_date false mockQ "2025-09-30" = some q3def ∧
    get_quarter_for_date false mockQ "2025-10-01" = some q4def ∧
    get_quarter_for_date false mockQ "2024-12-31" = none ∧
    get_quarter_for_date false mockQ "2025-009-30" = none ∧
    get_quarter_for_date false mockQ "+2025-09-30" = some q3def ∧
    get_quarter_for_date false mockQ " 2025-09-30" = some q3def := by
  have hne : ∀ (s : String) (d : Date), parseDate s = some d → ¬ s = "" := by
    intro s d hp hs
    rw [hs] at hp
    cases hp
  refine ⟨?_, ?_, ?_, ?_, ?_, ?_, ?_, ?_, ?_⟩
  · intro s hp
    unfold get_quarter_for_date
    rw [if_neg (by simp)]
    by_cases hs : s = ""
    · rw [if_pos hs]
    · rw [if_neg hs, hp]
  · intro s d hp hout
    unfold get_quarter_for_date
    rw [if_neg (by simp), if_neg (hne s d hp), hp]
    exact findQuarter_none d _ hout
  · intro s d q hp hq hc
    constructor
    · unfold get_quarter_for_date
      rw [if_neg (by simp), if_neg (hne s d hp), hp]
      exact findQuarter_first d q _ hq hc
        (fun a ha b hb h1 h2 => quarters_disjoint d a b ha hb h1 h2)
    · intro q2 hq2 hc2
      exact quarters_disjoint d q2 q hq2 hq hc2 hc
  · rfl
  · rfl
  · rfl
  · rfl
  · rfl
  · rfl

/-- Concrete instance of claim C6: 2025-08-15 parses, lies in Q3-2025,
and routes there. -/
theorem C6_quarter_routing_witness :
    get_quarter_for_date false
      (get_mock_quarter_definition none none) "2025-08-15" = some q3def :=
  (((C6_quarter_routing (get_mock_quarter_definition none none)).2.2.1
    "2025-08-15" { y := 2025, m := 8, d := 15 } q3def rfl
    (by simp [get_quarter_definitions]) (by decide))).1

/-- A successful HH:MM parse yields hours 0-23 and minutes 0-59. -/
theorem parse_time_to_minutes_ranges (s : String) (v : Int)
    (h : parse_time_to_minutes s = Except.ok v) :
    ∃ hours minutes : Int, 0 ≤ hours ∧ hours ≤ 23 ∧ 0 ≤ minutes ∧
      minutes ≤ 59 ∧ v = hours * 60 + minutes := by
  unfold parse_time_to_minutes at h
  split at h
  · split at h
    · cases h
    · split at h
      · cases h
      · split at h
        · cases h
        · split at h
          · cases h
          · rename_i hours hp0 xm minutes hp1 hb1 hb2
            injection h with hv
            exact ⟨hours, minutes, by omega, by omega, by omega,
              by omega, hv.symm⟩
  · cases h

/-- Claim C8: save_timesheet_draft persists a row only when both time
strings parse as strict HH:MM (hours 0-23, minutes 0-59), both minute
values are divisible by 15, and time-out is strictly after time-in; a
row violating any of these is rejected with an error and the store is
unchanged, so the row is never present to be marked Submitting later. -/
theorem C8_draft_validation (newId : Int) (row : DraftRow)
    (store : List StoredDraft) :
    ((save_timesheet_draft newId row store).1.success = true →
      ∃ tin tout : Int, parse_time_to_minutes row.time_in = Except.ok tin ∧
        parse_time_to_minutes row.time_out = Except.ok tout ∧
        tin % 15 = 0 ∧ tout % 15 = 0 ∧ tin < tout) ∧
    ((¬ ∃ tin tout : Int,
        parse_time_to_minutes row.time_in = Except.ok tin ∧
        parse_time_to_minutes row.time_out = Except.ok tout ∧
        tin % 15 = 0 ∧ tout % 15 = 0 ∧ tin < tout) →
      (save_timesheet_draft newId row store).1.success = false ∧
      (save_timesheet_draft newId row store).1.error.isSome = true ∧
      (save_timesheet_draft newId row store).2 = store) ∧
    (∀ s v, parse_time_to_minutes s = Except.ok v →
      ∃ hours minutes : Int, 0 ≤ hours ∧ hours ≤ 23 ∧ 0 ≤ minutes ∧
        minutes ≤ 59 ∧ v = hours * 60 + minutes) := by
  have hmain : (save_timesheet_draft newId row store).1.success = true →
      ∃ tin tout : Int, parse_time_to_minutes row.time_in = Except.ok tin ∧
        parse_time_to_minutes row.time_out = Except.ok tout ∧
        tin % 15 = 0 ∧ tout % 15 = 0 ∧ tin < tout := by
    intro hs
    unfold save_timesheet_draft at hs
    split at hs
    · cases hs
    · split at hs
      · cases hs
      · split at hs
        · cases hs
        · split at hs
          · cases hs
          · split at hs
            · cases hs
            · split at hs
              · cases hs
              · split at hs
                · cases hs
                · rename_i xin tin htin xout tout htout hdiv hle
                  push_neg at hdiv hle
                  exact ⟨tin, tout, htin, htout, hdiv.1, hdiv.2, hle⟩
  refine ⟨hmain, ?_, parse_time_to_minutes_ranges⟩
  intro hnot
  unfold save_timesheet_draft
  split
  · exact ⟨rfl, rfl, rfl⟩
  · split
    · exact ⟨rfl, rfl, rfl⟩
    · split
      · exact ⟨rfl, rfl, rfl⟩
      · split
        · exact ⟨rfl, rfl, rfl⟩
        · split
          · exact ⟨rfl, rfl, rfl⟩
          · split
            · exact ⟨rfl, rfl, rfl⟩
            · split
              · exact ⟨rfl, rfl, rfl⟩
              · exfalso
                rename_i xin tin htin xout tout htout hdiv hle
                push_neg at hdiv hle
                exact hnot ⟨tin, tout, htin, htout, hdiv.1, hdiv.2, hle⟩

/-- Concrete instance of claim C8: a row saved with times 09:00 and
17:30 persists, and its parsed times satisfy the claimed conditions. -/
theorem C8_draft_validation_witness :
    ∃ tin tout : Int,
      parse_time_to_minutes "09:00" = Except.ok tin ∧
      parse_time_to_minutes "17:30" = Except.ok tout ∧
      tin % 15 = 0 ∧ tout % 15 = 0 ∧ tin < tout :=
  (C8_draft_validation 1
    { id := none, date := "2025-07-10", time_in := "09:00"
      , time_out := "17:30", project := "P1", tool := none
      , charge_code := none, task_description := "work" } []).1 (by rfl)

/-- Counterexample to claim C7: the time string 09:99 has minutes
component 99, outside 0-59, yet calculate_hours accepts it and returns
Ok rather than an error.  (The instance is exact: 9 and 9 + 99/60 round
through f64 to within 1e-14 of 1.65, so the two printed decimals are
the same as in exact arithmetic.) -/
theorem C7_minutes_range_counterexample :
    calculate_hours "09:00" "09:99" = Except.ok "1.65" := by
  with_unfolding_all rfl

/-- Claim C7 as amended: calculate_hours returns an error whenever a
time string does not split on the colon into exactly two parts, and it
propagates the parse error of a non-numeric part, as at ab:cd; the
minutes component's range is not validated (see the counterexample); an
end time strictly before the start time is rejected with the explicit
negative-duration message, as at 10:00 vs 09:00; and the round-trip
pair 09:00/17:30 yields "8.50".  The concrete instances are stated at
inputs where f64 arithmetic is exact or its rounding cannot change the
printed decimals; value-level universal statements about the f64
results are not part of the claim. -/
theorem C7_hours_error_handling :
    (∀ s : String, (splitOnChar ':' s.data).length ≠ 2 →
      ∃ e, parse_time s = Except.error e) ∧
    (∀ tin tout e, parse_time tin = Except.error e →
      calculate_hours tin tout = Except.error e) ∧
    (∀ tin tout e q, parse_time tin = Except.ok q →
      parse_time tout = Except.error e →
      calculate_hours tin tout = Except.error e) ∧
    calculate_hours "ab:cd" "09:00" =
      Except.error "Fill failed: Invalid hours in: ab:cd" ∧
    calculate_hours "10:00" "09:00" =
      Except.error "Fill failed: Time out (09:00) is before time in (10:00)" ∧
    calculate_hours "09:00" "17:30" = Except.ok "8.50" := by
  refine ⟨?_, ?_, ?_, ?_, ?_, ?_⟩
  · intro s hlen
    unfold parse_time
    cases hsp : splitOnChar ':' s.data with
    | nil => exact ⟨_, rfl⟩
    | cons p0 rest =>
      cases rest with
      | nil => exact ⟨_, rfl⟩
      | cons p1 rest2 =>
        cases rest2 with
        | nil => rw [hsp] at hlen; simp at hlen
        | cons a b => exact ⟨_, rfl⟩
  · intro tin tout e he
    unfold calculate_hours
    rw [he]
  · intro tin tout e q hq he
    unfold calculate_hours
    rw [hq, he]
  · with_unfolding_all rfl
  · with_unfolding_all rfl
  · with_unfolding_all rfl

/-- Concrete instance of the amended claim C7: a string with three
colon-separated parts is rejected by the time parser. -/
theorem C7_hours_error_handling_witness :
    ∃ e, parse_time "1:2:3" = Except.error e :=
  (C7_hours_error_handling).1 "1:2:3" (by decide)
